import Mathlib

/-
Verification of the online-cinema backend (FastAPI + SQLAlchemy) against its
specification.  The relational store is shallowly embedded as lists of rows;
every operation below is a pure function translated from the corresponding
route handler or CRUD helper in the source.  Each request handler runs inside
one transaction: every `raise HTTPException` happens before `db.commit()`, so
a failing request leaves the store unchanged (session rollback); the pure
embeddings therefore return the unchanged state on the error branches.
Monetary columns are DECIMAL(10,2) with exact decimal arithmetic in the
source; they are embedded as integers (cents).  Timestamps are embedded as
integers.  Randomly generated strings (tokens, uuids) are taken as explicit
parameters.
-/

namespace OnlineCinema

/-- Embedded HTTP error: status code plus detail string, as raised by
`HTTPException(status_code=..., detail=...)`.  Interpolated ids inside detail
strings are rendered with `toString`. -/
structure ErrResp where
  status : Nat
  detail : String
deriving Repr, DecidableEq

/-- Source: src/database/models/orders.py, `OrderStatusesEnum`. -/
inductive OrderStatusesEnum
  | Pending
  | Paid
  | Canceled
deriving Repr, DecidableEq

/-- Source: src/database/models/movies.py, `Movie`.  The genre/star/director
many-to-many links are deduplicated by unique name in the source
(upsert-by-name), so the linked taxonomy rows are embedded denormalized as
the lists of their names.  Surrogate keys of join rows are omitted. -/
structure MovieRow where
  id : Nat
  uuid : String
  name : String
  year : Int
  time : Int
  imdb : Int
  votes : Int
  meta_score : Option Int
  gross : Option Int
  description : String
  price : Int
  certification_id : Nat
  genres : List String
  stars : List String
  directors : List String
deriving Repr, DecidableEq

/-- Source: src/database/models/cart.py, `Cart` (one per user, unique user_id). -/
structure CartRow where
  id : Nat
  user_id : Nat
deriving Repr, DecidableEq

/-- Source: src/database/models/cart.py, `CartItem` (unique (cart_id, movie_id)). -/
structure CartItemRow where
  cart_id : Nat
  movie_id : Nat
deriving Repr, DecidableEq

/-- Source: src/database/models/cart.py, `Purchase` (unique (user_id, movie_id)). -/
structure PurchaseRow where
  user_id : Nat
  movie_id : Nat
deriving Repr, DecidableEq

/-- Source: src/database/models/orders.py, `Order`. -/
structure OrderRow where
  id : Nat
  user_id : Nat
  status : OrderStatusesEnum
  total_amount : Int
deriving Repr, DecidableEq

/-- Source: src/database/models/orders.py, `OrderItem` (surrogate id omitted). -/
structure OrderItemRow where
  order_id : Nat
  movie_id : Nat
  price_at_order : Int
deriving Repr, DecidableEq

/-- Source: src/database/models/user.py, `User` (profile/group columns not
touched by any claim are omitted). -/
structure UserRow where
  id : Nat
  email : String
  hashed_password : String
  is_active : Bool
deriving Repr, DecidableEq

/-- Source: src/database/models/user.py, `ActivationToken`. -/
structure ActivationTokenRow where
  user_id : Nat
  token : String
  expires_at : Int
deriving Repr, DecidableEq

/-- Source: src/database/models/user.py, `PasswordResetToken`. -/
structure PasswordResetTokenRow where
  user_id : Nat
  token : String
  expires_at : Int
deriving Repr, DecidableEq

/-- Source: src/database/models/user.py, `RefreshToken`. -/
structure RefreshTokenRow where
  user_id : Nat
  token : String
  expires_at : Int
deriving Repr, DecidableEq

/-- The relational store: one list of rows per table. -/
structure DB where
  users : List UserRow
  activation_tokens : List ActivationTokenRow
  password_reset_tokens : List PasswordResetTokenRow
  refresh_tokens : List RefreshTokenRow
  movies : List MovieRow
  carts : List CartRow
  cart_items : List CartItemRow
  purchases : List PurchaseRow
  orders : List OrderRow
  order_items : List OrderItemRow
deriving Repr, DecidableEq

/-- `select(Cart).where(Cart.user_id == user.id)`, `.first()`. -/
def findCart (db : DB) (userId : Nat) : Option CartRow :=
  db.carts.find? (fun c => c.user_id == userId)

/-- The `Cart.items` relationship: all cart items of the given cart. -/
def cartItemsOf (db : DB) (cartId : Nat) : List CartItemRow :=
  db.cart_items.filter (fun ci => ci.cart_id == cartId)

/-- `select(Movie).where(Movie.id == movie_id)`, `.first()`. -/
def findMovie (db : DB) (movieId : Nat) : Option MovieRow :=
  db.movies.find? (fun m => m.id == movieId)

/-- `select(Purchase).where(Purchase.movie_id == ..., Purchase.user_id == ...)`
is nonempty. -/
def hasPurchase (db : DB) (userId movieId : Nat) : Bool :=
  db.purchases.any (fun p => p.user_id == userId && p.movie_id == movieId)

/-- `select(OrderItem).join(Order).where(OrderItem.movie_id == ...,
Order.user_id == ..., Order.status == Pending)` is nonempty. -/
def hasPendingOrderItem (db : DB) (userId movieId : Nat) : Bool :=
  db.order_items.any (fun oi =>
    oi.movie_id == movieId &&
    db.orders.any (fun o =>
      o.id == oi.order_id && o.user_id == userId &&
      o.status == OrderStatusesEnum.Pending))

/-- Fresh autoincrement primary key for `orders`: strictly larger than every
existing id. -/
def freshOrderId (db : DB) : Nat :=
  (db.orders.map (fun o => o.id)).foldr max 0 + 1

/-- Fresh autoincrement primary key for `carts`. -/
def freshCartId (db : DB) : Nat :=
  (db.carts.map (fun c => c.id)).foldr max 0 + 1

/-- Fresh autoincrement primary key for `movies`. -/
def freshMovieId (db : DB) : Nat :=
  (db.movies.map (fun m => m.id)).foldr max 0 + 1

/-- Price of the referenced movie row (the per-item snapshot read). -/
def moviePrice (db : DB) (movieId : Nat) : Int :=
  match findMovie db movieId with
  | none => 0
  | some m => m.price

/-- The `for item in cart.items:` loop body of `create_order`
(src/routes/orders.py): per item, 409 if already purchased, 409 if an
existing Pending order of the user references the movie, otherwise record
`(item.movie.id, item.movie.price)` and accumulate `to_pay`.  A cart item
whose movie row is absent would crash the handler before commit; that is
embedded as a 500 error (foreign keys rule it out in the store). -/
def validateItems (db : DB) (userId : Nat) :
    List CartItemRow → Except ErrResp (List (Nat × Int) × Int)
  | [] => Except.ok ([], 0)
  | item :: rest =>
    if hasPurchase db userId item.movie_id then
      Except.error ⟨409, "Movie with ID " ++ toString item.movie_id ++ " is already purchased."⟩
    else if hasPendingOrderItem db userId item.movie_id then
      Except.error ⟨409, "A pending order for movie with ID " ++ toString item.movie_id ++ " already exists."⟩
    else
      match findMovie db item.movie_id with
      | none => Except.error ⟨500, "Internal Server Error"⟩
      | some movie =>
        match validateItems db userId rest with
        | Except.error e => Except.error e
        | Except.ok (pairs, total) =>
          Except.ok ((movie.id, movie.price) :: pairs, movie.price + total)

/-- Source: src/routes/orders.py, `create_order`.  Reads the user cart with
items (404 if missing or empty), validates every item, then in one
transaction inserts the Pending order, one order item per cart item with the
snapshotted price, and deletes the cart; `cascade="all, delete-orphan"` on
`Cart.items` deletes its cart items with it.  All raises happen before
`db.commit()`, so every error branch returns the store unchanged. -/
def create_order (db : DB) (userId : Nat) : DB × Except ErrResp OrderRow :=
  match findCart db userId with
  | none => (db, Except.error ⟨404, "Cart not found or is empty"⟩)
  | some cart =>
    match cartItemsOf db cart.id with
    | [] => (db, Except.error ⟨404, "Cart not found or is empty"⟩)
    | item :: rest =>
      match validateItems db userId (item :: rest) with
      | Except.error e => (db, Except.error e)
      | Except.ok (pairs, to_pay) =>
        let oid := freshOrderId db
        let new_order : OrderRow := ⟨oid, userId, OrderStatusesEnum.Pending, to_pay⟩
        ({ db with
            orders := db.orders ++ [new_order]
            order_items := db.order_items ++ pairs.map (fun p => ⟨oid, p.1, p.2⟩)
            carts := db.carts.filter (fun c => !(c.id == cart.id))
            cart_items := db.cart_items.filter (fun ci => !(ci.cart_id == cart.id)) },
         Except.ok new_order)

/-- Source: src/routes/orders.py, `cancel_order`.  404 if no order with that
id is owned by the caller, 409 if its status is not Pending, otherwise the
row (found by primary key) is updated to Canceled and returned. -/
def cancel_order (db : DB) (orderId userId : Nat) : DB × Except ErrResp OrderRow :=
  match db.orders.find? (fun o => o.id == orderId && o.user_id == userId) with
  | none => (db, Except.error ⟨404, "Order not found"⟩)
  | some o =>
    if o.status ≠ OrderStatusesEnum.Pending then
      (db, Except.error ⟨409, "Order cannot be canceled."⟩)
    else
      ({ db with
          orders := db.orders.map (fun x =>
            if x.id == orderId then { x with status := OrderStatusesEnum.Canceled } else x) },
       Except.ok { o with status := OrderStatusesEnum.Canceled })

/-- Source: src/routes/cart.py, `add_movie_to_cart`.  404 if the movie is
absent, 400 if the user already purchased it, no-op success if the pair is
already in the cart, otherwise inserts the cart item, creating the cart
first if needed.  The already-in-cart branch returns before `db.commit()`,
so the store is unchanged there (a cart freshly added by `db.add` plus
`flush` would be rolled back, though with fresh ids that branch cannot have
a matching item). -/
def add_movie_to_cart (db : DB) (userId movieId : Nat) : DB × Except ErrResp String :=
  match findMovie db movieId with
  | none => (db, Except.error ⟨404, "Movie not found."⟩)
  | some _ =>
    if hasPurchase db userId movieId then
      (db, Except.error ⟨400, "You have already purchased this movie."⟩)
    else
      match findCart db userId with
      | some cart =>
        if db.cart_items.any (fun ci => ci.cart_id == cart.id && ci.movie_id == movieId) then
          (db, Except.ok "Movie is already in the cart.")
        else
          ({ db with cart_items := db.cart_items ++ [⟨cart.id, movieId⟩] },
           Except.ok "Movie successfully added to cart.")
      | none =>
        let cart : CartRow := ⟨freshCartId db, userId⟩
        if db.cart_items.any (fun ci => ci.cart_id == cart.id && ci.movie_id == movieId) then
          (db, Except.ok "Movie is already in the cart.")
        else
          ({ db with
              carts := db.carts ++ [cart]
              cart_items := db.cart_items ++ [⟨cart.id, movieId⟩] },
           Except.ok "Movie successfully added to cart.")

/-- Source: src/crud/auth.py, `create_activation_token`.  Deletes every prior
activation token of the user, then inserts the new one.  The random token
string and the computed expiry (`utcnow + ACTIVATION_TOKEN_EXPIRE_HOURS`)
are taken as parameters. -/
def create_activation_token (db : DB) (userId : Nat) (token : String)
    (expires_at : Int) : DB × ActivationTokenRow :=
  let row : ActivationTokenRow := ⟨userId, token, expires_at⟩
  ({ db with
      activation_tokens :=
        db.activation_tokens.filter (fun t => !(t.user_id == userId)) ++ [row] },
   row)

/-- Source: src/crud/auth.py, `create_password_reset_token`.  Same
replace-not-append shape as activation tokens. -/
def create_password_reset_token (db : DB) (userId : Nat) (token : String)
    (expires_at : Int) : DB × PasswordResetTokenRow :=
  let row : PasswordResetTokenRow := ⟨userId, token, expires_at⟩
  ({ db with
      password_reset_tokens :=
        db.password_reset_tokens.filter (fun t => !(t.user_id == userId)) ++ [row] },
   row)

/-- Source: src/crud/auth.py, `verify_activation_token`.  Looks the token up
by string; returns none if absent or `expires_at < utcnow` (note: strict);
otherwise marks the referenced user active, deletes all activation tokens of
that user and returns the user.  Failure paths commit nothing. -/
def verify_activation_token (db : DB) (token : String) (now : Int) :
    DB × Option UserRow :=
  match db.activation_tokens.find? (fun t => t.token == token) with
  | none => (db, none)
  | some row =>
    if row.expires_at < now then (db, none)
    else
      match db.users.find? (fun u => u.id == row.user_id) with
      | none => (db, none)
      | some u =>
        ({ db with
            users := db.users.map (fun x =>
              if x.id == u.id then { x with is_active := true } else x)
            activation_tokens :=
              db.activation_tokens.filter (fun t => !(t.user_id == u.id)) },
         some { u with is_active := true })

/-- Source: src/crud/auth.py, `verify_password_reset_token`.  Pure read: none
if absent or `expires_at < utcnow` (strict), else the referenced user. -/
def verify_password_reset_token (db : DB) (token : String) (now : Int) :
    Option UserRow :=
  match db.password_reset_tokens.find? (fun t => t.token == token) with
  | none => none
  | some pr =>
    if pr.expires_at < now then none
    else db.users.find? (fun u => u.id == pr.user_id)

/-- Source: src/crud/auth.py, `create_refresh_token` (append, many per user). -/
def create_refresh_token (db : DB) (userId : Nat) (token : String)
    (expires_at : Int) : DB × RefreshTokenRow :=
  let row : RefreshTokenRow := ⟨userId, token, expires_at⟩
  ({ db with refresh_tokens := db.refresh_tokens ++ [row] }, row)

/-- Source: src/crud/auth.py, `revoke_refresh_token`: delete by token string. -/
def revoke_refresh_token (db : DB) (token : String) : DB :=
  { db with refresh_tokens := db.refresh_tokens.filter (fun t => !(t.token == token)) }

/-- Source: src/routes/auth.py, `refresh`.  401 if the refresh token row is
absent; if `expires_at < utcnow` (strict) the row is revoked and 401 is
returned; otherwise a new access token for `token_row.user_id` is issued
(the stateless access token is embedded as its user id payload). -/
def refresh (db : DB) (refresh_token : String) (now : Int) :
    DB × Except ErrResp Nat :=
  match db.refresh_tokens.find? (fun t => t.token == refresh_token) with
  | none => (db, Except.error ⟨401, "Invalid refresh token"⟩)
  | some row =>
    if row.expires_at < now then
      (revoke_refresh_token db row.token, Except.error ⟨401, "Refresh token expired"⟩)
    else
      (db, Except.ok row.user_id)

/-- Source: src/routes/auth.py, `resend_activation`.  Message per branch:
unregistered email, already-active account, and the successful send each
return a distinct string (the docstring promises a generic one). -/
def resend_activation (db : DB) (email token : String) (expires_at : Int) :
    DB × String :=
  match db.users.find? (fun u => u.email == email) with
  | none => (db, "If the email is registered, activation email was sent")
  | some u =>
    if u.is_active then (db, "Account already active")
    else ((create_activation_token db u.id token expires_at).1, "Activation email sent")

/-- Source: src/routes/auth.py, `forgot_password`.  Returns the same generic
string on every branch; a reset token is issued only for a registered active
account. -/
def forgot_password (db : DB) (email token : String) (expires_at : Int) :
    DB × String :=
  match db.users.find? (fun u => u.email == email) with
  | none => (db, "If the email is registered, a reset link was sent")
  | some u =>
    if !u.is_active then (db, "If the email is registered, a reset link was sent")
    else
      ((create_password_reset_token db u.id token expires_at).1,
       "If the email is registered, a reset link was sent")

/-- Source: src/schemas/movies.py, `MovieCreateSchema` (payload of
`POST /movies/`). -/
structure MovieCreateSchema where
  name : String
  year : Int
  time : Int
  imdb : Int
  votes : Int
  meta_score : Option Int
  gross : Option Int
  description : String
  price : Int
  certification_id : Nat
  genres : List String
  stars : List String
  directors : List String
deriving Repr, DecidableEq

/-- Source: src/routes/movies.py, `create_movie`.  409 if a movie with the
same name and year already exists (the pre-check reads only those two
columns); otherwise the row is inserted with its genre/star/director names
upserted-by-name (embedded denormalized on the row) and the generated uuid
taken as a parameter. -/
def create_movie (db : DB) (inp : MovieCreateSchema) (uuid : String) :
    DB × Except ErrResp MovieRow :=
  match db.movies.find? (fun m => m.name == inp.name && m.year == inp.year) with
  | some _ =>
    (db, Except.error ⟨409, "A movie with the same name and year already exists."⟩)
  | none =>
    let mv : MovieRow :=
      { id := freshMovieId db, uuid := uuid, name := inp.name, year := inp.year,
        time := inp.time, imdb := inp.imdb, votes := inp.votes,
        meta_score := inp.meta_score, gross := inp.gross,
        description := inp.description, price := inp.price,
        certification_id := inp.certification_id, genres := inp.genres,
        stars := inp.stars, directors := inp.directors }
    ({ db with movies := db.movies ++ [mv] }, Except.ok mv)

/-- An arbitrary later update of `Movie.price` on one movie row.  No route of
the repository mutates a movie price; this transformer embeds the
hypothetical environment change quantified over in the frozen-price claim. -/
def updateMoviePrice (db : DB) (movieId : Nat) (p : Int) : DB :=
  { db with
      movies := db.movies.map (fun m =>
        if m.id == movieId then { m with price := p } else m) }

/-- Case-insensitive substring test embedding the `ilike` pattern
`%q%` (wildcard characters inside `q` are not modelled). -/
def ilikeContains (s q : String) : Bool :=
  ((s.toLower).splitOn (q.toLower)).length != 1

/-- The `q` search disjunction of `list_movies`: name or description or any
linked genre/star/director name matches. -/
def movieMatchesQ (m : MovieRow) (q : String) : Bool :=
  ilikeContains m.name q || ilikeContains m.description q ||
  m.genres.any (fun g => ilikeContains g q) ||
  m.stars.any (fun s => ilikeContains s q) ||
  m.directors.any (fun d => ilikeContains d q)

/-- The filter chain of `list_movies`.  Python truthiness: `if year:` skips
the filter for zero, `if q:` skips it for the empty string, while the rating
bounds are compared against None only. -/
def applyFilters (movies : List MovieRow) (year : Option Int)
    (min_rating max_rating : Option Int) (q : Option String) : List MovieRow :=
  let l1 := match year with
    | some y => if y ≠ 0 then movies.filter (fun m => m.year == y) else movies
    | none => movies
  let l2 := match min_rating with
    | some r => l1.filter (fun m => r ≤ m.imdb)
    | none => l1
  let l3 := match max_rating with
    | some r => l2.filter (fun m => m.imdb ≤ r)
    | none => l2
  match q with
  | some s => if s ≠ "" then l3.filter (fun m => movieMatchesQ m s) else l3
  | none => l3

/-- The allow-listed sort keys of `list_movies`. -/
inductive SortBy
  | name
  | year
  | imdb
  | price
  | votes
deriving Repr, DecidableEq

/-- Ascending comparison on the selected sort key; `func.lower` applied to
the name column. -/
def keyLe : SortBy → MovieRow → MovieRow → Bool
  | SortBy.name, a, b => a.name.toLower ≤ b.name.toLower
  | SortBy.year, a, b => a.year ≤ b.year
  | SortBy.imdb, a, b => a.imdb ≤ b.imdb
  | SortBy.price, a, b => a.price ≤ b.price
  | SortBy.votes, a, b => a.votes ≤ b.votes

/-- Insertion into a sorted list, for the ORDER BY embedding. -/
def insertSorted (le : MovieRow → MovieRow → Bool) (m : MovieRow) :
    List MovieRow → List MovieRow
  | [] => [m]
  | x :: xs => if le m x then m :: x :: xs else x :: insertSorted le m xs

/-- Insertion sort embedding `order_by` of `list_movies`. -/
def sortMovies (le : MovieRow → MovieRow → Bool) : List MovieRow → List MovieRow
  | [] => []
  | x :: xs => insertSorted le x (sortMovies le xs)

/-- Source: src/schemas/movies.py, `MovieListSchema` (counts rendered as
strings by the route, as in `str(total)`). -/
structure MovieListSchema where
  movies : List MovieRow
  prev_page : Option String
  next_page : Option String
  total_pages : String
  total_items : String
deriving Repr, DecidableEq

/-- Source: src/routes/movies.py, `list_movies`.  Filters and sorts the
movies, but computes `total` with `select(func.count(Movie.id))`, a count of
the whole movies table, and derives `total_pages` and the `next_page` cutoff
from that unfiltered count.  404 when the requested page slice is empty. -/
def list_movies (db : DB) (page limit : Nat) (year : Option Int)
    (min_rating max_rating : Option Int) (order : String) (sort_by : SortBy)
    (q : Option String) : Except ErrResp MovieListSchema :=
  let skip := (page - 1) * limit
  let filtered := applyFilters db.movies year min_rating max_rating q
  let le := if order == "desc" then (fun a b => keyLe sort_by b a) else keyLe sort_by
  let sorted := sortMovies le filtered
  let total := db.movies.length
  let total_pages := (total + limit - 1) / limit
  let paged := (sorted.drop skip).take limit
  if paged.isEmpty then
    Except.error ⟨404, "No movies found."⟩
  else
    Except.ok
      { movies := paged
        prev_page :=
          if page > 1 then
            some ("/movies/?page=" ++ toString (page - 1) ++ "&limit=" ++ toString limit)
          else none
        next_page :=
          if page < total_pages then
            some ("/movies/?page=" ++ toString (page + 1) ++ "&limit=" ++ toString limit)
          else none
        total_pages := toString total_pages
        total_items := toString total }

/-- Status code of the HTTP error a request produced, if it failed. -/
def errStatus {α : Type} : Except ErrResp α → Option Nat
  | Except.error e => some e.status
  | Except.ok _ => none

/-- Uniqueness invariant of the movies table:
`UniqueConstraint("name", "year", "time")` in src/database/models/movies.py. -/
def tripleUnique (db : DB) : Prop :=
  db.movies.Pairwise (fun a b => ¬(a.name = b.name ∧ a.year = b.year ∧ a.time = b.time))

/-- Foreign-key integrity of `cart_items.cart_id` into `carts.id`. -/
def cartItemsRefIntegrity (db : DB) : Prop :=
  ∀ ci ∈ db.cart_items, ∃ c ∈ db.carts, c.id = ci.cart_id

/-- The store-level `UniqueConstraint("cart_id", "movie_id")` on cart items. -/
def cartItemKeysNodup (db : DB) : Prop :=
  db.cart_items.Pairwise (fun a b => ¬(a.cart_id = b.cart_id ∧ a.movie_id = b.movie_id))

/-- The store-level unique constraint on the activation token string column. -/
def activationTokensNodup (db : DB) : Prop :=
  (db.activation_tokens.map (fun t => t.token)).Nodup

/-- Fixture movie, price 9.99 embedded as 999 cents. -/
def mvA : MovieRow :=
  ⟨1, "uA", "Alpha", 2000, 100, 80, 10, none, none, "first fixture movie", 999, 1, ["Drama"], ["Star One"], ["Dir One"]⟩

/-- Fixture movie, price 5.00 embedded as 500 cents. -/
def mvB : MovieRow :=
  ⟨2, "uB", "Beta", 2001, 90, 70, 5, none, none, "second fixture movie", 500, 1, ["Comedy"], ["Star Two"], ["Dir Two"]⟩

/-- Fixture store: user 1 with a cart holding both fixture movies. -/
def dbOrder : DB :=
  ⟨[⟨1, "a@b.com", "h", true⟩], [], [], [], [mvA, mvB], [⟨1, 1⟩], [⟨1, 1⟩, ⟨1, 2⟩], [], [], []⟩

/-- Fixture store: like `dbOrder` but movie 1 is already purchased by user 1. -/
def dbConflict : DB :=
  { dbOrder with purchases := [⟨1, 1⟩] }

/-- Fixture store: user 1 owns a Pending order 5. -/
def dbCancel : DB :=
  ⟨[⟨1, "a@b.com", "h", true⟩], [], [], [], [mvA], [], [], [],
   [⟨5, 1, OrderStatusesEnum.Pending, 999⟩], [⟨5, 1, 999⟩]⟩

/-- Fixture store: movie 1 exists, user 1 has no cart yet. -/
def dbAdd : DB :=
  ⟨[⟨1, "a@b.com", "h", true⟩], [], [], [], [mvA], [], [], [], [], []⟩

/-- Fixture store: movie 1 exists and user 1 already purchased it. -/
def dbPurchased : DB :=
  { dbAdd with purchases := [⟨1, 1⟩] }

/-- Fixture store: inactive user 1 with an activation token and a refresh
token, both expiring at time 100. -/
def dbTok : DB :=
  ⟨[⟨1, "a@b.com", "h", false⟩], [⟨1, "act", 100⟩], [], [⟨1, "ref", 100⟩], [], [], [], [], [], []⟩

/-- Fixture store with no rows at all. -/
def dbEmpty : DB :=
  ⟨[], [], [], [], [], [], [], [], [], []⟩

/-- Fixture store: active user 1 (registered, already activated). -/
def dbActive : DB :=
  ⟨[⟨1, "a@b.com", "h", true⟩], [], [], [], [], [], [], [], [], []⟩

/-- Fixture result of `list_movies dbOrder 1 1 (some 2000) none none "asc" name none`. -/
def rWlist : MovieListSchema :=
  ⟨[mvA], none, some "/movies/?page=2&limit=1", "2", "2"⟩

theorem list_movies_ok_fields (db : DB) (page limit : Nat) (year : Option Int)
    (min_rating max_rating : Option Int) (order : String) (sort_by : SortBy)
    (q : Option String) (r : MovieListSchema)
    (h : list_movies db page limit year min_rating max_rating order sort_by q = Except.ok r) :
    r.total_items = toString db.movies.length ∧
    r.total_pages = toString ((db.movies.length + limit - 1) / limit) ∧
    r.next_page = (if page < (db.movies.length + limit - 1) / limit then
      some ("/movies/?page=" ++ toString (page + 1) ++ "&limit=" ++ toString limit)
      else none) := by
  simp only [list_movies] at h
  split at h
  all_goals split at h
  all_goals try exact Except.noConfusion h
  all_goals (injection h with h2; subst h2; exact ⟨rfl, rfl, rfl⟩)

/-- C10: for every movie-listing query, the pagination metadata
(total_items, total_pages and the next_page cutoff) is computed from the
count of all movies in the store, so it does not depend on the year, rating
or search filters. -/
theorem list_movies_pagination_metadata (db : DB) (page limit : Nat)
    (year : Option Int) (min_rating max_rating : Option Int) (order : String)
    (sort_by : SortBy) (q : Option String) (r : MovieListSchema)
    (h : list_movies db page limit year min_rating max_rating order sort_by q = Except.ok r) :
    r.total_items = toString db.movies.length ∧
    r.total_pages = toString ((db.movies.length + limit - 1) / limit) ∧
    (r.next_page.isSome ↔ page < (db.movies.length + limit - 1) / limit) ∧
    ∀ (year2 min2 max2 : Option Int) (order2 : String) (sort2 : SortBy)
      (q2 : Option String) (r2 : MovieListSchema),
      list_movies db page limit year2 min2 max2 order2 sort2 q2 = Except.ok r2 →
      r2.total_items = r.total_items ∧ r2.total_pages = r.total_pages ∧
      r2.next_page = r.next_page := by
  obtain ⟨h1, h2, h3⟩ :=
    list_movies_ok_fields db page limit year min_rating max_rating order sort_by q r h
  refine ⟨h1, h2, ?_, ?_⟩
  · rw [h3]; split <;> simp [*]
  · intro year2 min2 max2 order2 sort2 q2 r2 h4
    obtain ⟨g1, g2, g3⟩ :=
      list_movies_ok_fields db page limit year2 min2 max2 order2 sort2 q2 r2 h4
    exact ⟨g1.trans h1.symm, g2.trans h2.symm, g3.trans h3.symm⟩

theorem list_movies_pagination_metadata_witness :
    rWlist.total_items = toString dbOrder.movies.length ∧
    rWlist.total_pages = toString ((dbOrder.movies.length + 1 - 1) / 1) := by
  have h := list_movies_pagination_metadata dbOrder 1 1 (some 2000) none none
    "asc" SortBy.name none rWlist (by rfl)
  exact ⟨h.1, h.2.1⟩

/-- C9: the forgot-password flow answers with one identical generic message
on every input, but resend-activation answers with three pairwise distinct
messages, so its response distinguishes registered from unregistered
emails (contradicting its own docstring). -/
theorem enumeration_message_divergence :
    (∀ (db : DB) (email token : String) (expires_at : Int),
      (forgot_password db email token expires_at).2 =
        "If the email is registered, a reset link was sent") ∧
    (resend_activation dbTok "a@b.com" "t2" 200).2 = "Activation email sent" ∧
    (resend_activation dbEmpty "a@b.com" "t2" 200).2 =
      "If the email is registered, activation email was sent" ∧
    (resend_activation dbActive "a@b.com" "t2" 200).2 = "Account already active" ∧
    "Activation email sent" ≠ "If the email is registered, activation email was sent" := by
  refine ⟨?_, by rfl, by rfl, by rfl, by decide⟩
  intro db email token expires_at
  unfold forgot_password
  split
  · rfl
  · split <;> rfl

/-- C7 counterexample: at the exact expiry instant (now = expires_at = 100)
both the refresh and the activation redemption succeed, while the claim
requires failure whenever current time ≥ expiry. -/
theorem token_expiry_boundary_counterexample :
    (refresh dbTok "ref" 100).2 = Except.ok 1 ∧
    (verify_activation_token dbTok "act" 100).2 = some ⟨1, "a@b.com", "h", true⟩ := by
  constructor <;> rfl

/-- C7 amended: redemption fails when the token string is absent, and fails
as expired exactly when current time is strictly greater than the expiry
(the source compares `expires_at < utcnow`); an expired refresh token is
revoked (deleted) by the failed refresh attempt, which returns 401. -/
theorem token_expiry_spec (db : DB) (t : String) (now : Int) :
    (db.refresh_tokens.find? (fun x => x.token == t) = none →
      refresh db t now = (db, Except.error ⟨401, "Invalid refresh token"⟩)) ∧
    (∀ row, db.refresh_tokens.find? (fun x => x.token == t) = some row →
      row.expires_at < now →
      refresh db t now =
        (revoke_refresh_token db row.token, Except.error ⟨401, "Refresh token expired"⟩) ∧
      ((refresh db t now).1).refresh_tokens.find? (fun x => x.token == t) = none) ∧
    (∀ row, db.refresh_tokens.find? (fun x => x.token == t) = some row →
      ¬(row.expires_at < now) → refresh db t now = (db, Except.ok row.user_id)) ∧
    (db.activation_tokens.find? (fun x => x.token == t) = none →
      verify_activation_token db t now = (db, none)) ∧
    (∀ row, db.activation_tokens.find? (fun x => x.token == t) = some row →
      row.expires_at < now → verify_activation_token db t now = (db, none)) ∧
    (db.password_reset_tokens.find? (fun x => x.token == t) = none →
      verify_password_reset_token db t now = none) ∧
    (∀ row, db.password_reset_tokens.find? (fun x => x.token == t) = some row →
      row.expires_at < now → verify_password_reset_token db t now = none) := by
  refine ⟨?_, ?_, ?_, ?_, ?_, ?_, ?_⟩
  · intro h; unfold refresh; rw [h]
  · intro row hrow hlt
    have htok : row.token = t := by
      have := List.find?_some hrow
      simpa using this
    constructor
    · unfold refresh; rw [hrow]; simp [hlt]
    · unfold refresh; rw [hrow]; simp only [hlt, if_true]
      unfold revoke_refresh_token
      simp only [List.find?_filter]
      rw [List.find?_eq_none]
      intro x hx
      simp [htok]
  · intro row hrow hge
    unfold refresh; rw [hrow]; simp [hge]
  · intro h; unfold verify_activation_token; rw [h]
  · intro row hrow hlt
    unfold verify_activation_token; rw [hrow]; simp [hlt]
  · intro h; unfold verify_password_reset_token; rw [h]
  · intro row hrow hlt
    unfold verify_password_reset_token; rw [hrow]; simp [hlt]

theorem token_expiry_spec_witness :
    refresh dbTok "ref" 200 =
      (revoke_refresh_token dbTok "ref", Except.error ⟨401, "Refresh token expired"⟩) ∧
    verify_activation_token dbTok "act" 200 = (dbTok, none) ∧
    refresh dbEmpty "ref" 0 = (dbEmpty, Except.error ⟨401, "Invalid refresh token"⟩) := by
  have h := token_expiry_spec dbTok "ref" 200
  have h2 := token_expiry_spec dbTok "act" 200
  have h3 := token_expiry_spec dbEmpty "ref" 0
  refine ⟨(h.2.1 ⟨1, "ref", 100⟩ (by rfl) (by decide)).1, ?_, ?_⟩
  · exact h2.2.2.2.2.1 ⟨1, "act", 100⟩ (by rfl) (by decide)
  · exact h3.1 (by rfl)

/-- Fixture creation payload colliding with `mvA` on (name, year, runtime). -/
def inpDup : MovieCreateSchema :=
  ⟨"Alpha", 2000, 100, 50, 1, none, none, "duplicate payload", 100, 1, [], [], []⟩

/-- C8: creating a movie whose (name, year, runtime) triple collides with an
existing movie fails 409 (the pre-check already rejects on (name, year)
alone), and `create_movie` preserves uniqueness of the triple. -/
theorem movie_triple_unique_spec (db : DB) (inp : MovieCreateSchema) (uuid : String) :
    ((∃ m ∈ db.movies, m.name = inp.name ∧ m.year = inp.year ∧ m.time = inp.time) →
      create_movie db inp uuid =
        (db, Except.error ⟨409, "A movie with the same name and year already exists."⟩)) ∧
    (tripleUnique db → tripleUnique (create_movie db inp uuid).1) := by
  constructor
  · rintro ⟨m, hm, hname, hyear, _⟩
    unfold create_movie
    cases hf : db.movies.find? (fun x => x.name == inp.name && x.year == inp.year) with
    | none =>
      rw [List.find?_eq_none] at hf
      exact absurd (by simp [hname, hyear]) (hf m hm)
    | some _ => rfl
  · intro hU
    unfold create_movie
    cases hf : db.movies.find? (fun x => x.name == inp.name && x.year == inp.year) with
    | some _ => exact hU
    | none =>
      rw [List.find?_eq_none] at hf
      unfold tripleUnique at hU ⊢
      simp only
      rw [List.pairwise_append]
      refine ⟨hU, by simp, ?_⟩
      rintro a ha b hb ⟨h1, h2, _⟩
      rw [List.mem_singleton] at hb
      subst hb
      exact hf a ha (by simp [h1, h2])

theorem movie_triple_unique_witness :
    create_movie dbAdd inpDup "uX" =
      (dbAdd, Except.error ⟨409, "A movie with the same name and year already exists."⟩) ∧
    tripleUnique (create_movie dbAdd inpDup "uX").1 := by
  have h := movie_triple_unique_spec dbAdd inpDup "uX"
  refine ⟨h.1 ⟨mvA, by simp [dbAdd], by simp [mvA, inpDup]⟩, h.2 ?_⟩
  simp [tripleUnique, dbAdd]

theorem cancel_map_find (l : List OrderRow) (orderId userId : Nat) (o : OrderRow)
    (h : l.find? (fun x => x.id == orderId && x.user_id == userId) = some o) :
    (l.map (fun x =>
        if x.id == orderId then { x with status := OrderStatusesEnum.Canceled } else x)).find?
      (fun x => x.id == orderId && x.user_id == userId) =
      some { o with status := OrderStatusesEnum.Canceled } := by
  induction l with
  | nil => simp at h
  | cons a l ih =>
    have hpred : (((if a.id == orderId then { a with status := OrderStatusesEnum.Canceled } else a).id == orderId) &&
        ((if a.id == orderId then { a with status := OrderStatusesEnum.Canceled } else a).user_id == userId)) =
        (a.id == orderId && a.user_id == userId) := by
      split <;> rfl
    cases hp : (a.id == orderId && a.user_id == userId) with
    | true =>
      simp only [List.find?_cons, hp] at h
      injection h with h2
      subst h2
      have hid : (a.id == orderId) = true := by
        cases hid2 : (a.id == orderId) with
        | false => rw [hid2, Bool.false_and] at hp; exact absurd hp (by simp)
        | true => rfl
      simp only [List.map_cons, List.find?_cons, hpred, hp, if_pos hid]
    | false =>
      simp only [List.find?_cons, hp] at h
      simp only [List.map_cons, List.find?_cons, hpred, hp]
      exact ih h

theorem cancel_order_none (db : DB) (orderId userId : Nat)
    (h : db.orders.find? (fun o => o.id == orderId && o.user_id == userId) = none) :
    cancel_order db orderId userId = (db, Except.error ⟨404, "Order not found"⟩) := by
  unfold cancel_order; rw [h]

theorem cancel_order_nonpending (db : DB) (orderId userId : Nat) (o : OrderRow)
    (h : db.orders.find? (fun o => o.id == orderId && o.user_id == userId) = some o)
    (hne : o.status ≠ OrderStatusesEnum.Pending) :
    cancel_order db orderId userId =
      (db, Except.error ⟨409, "Order cannot be canceled."⟩) := by
  unfold cancel_order; rw [h]; simp [hne]

theorem cancel_order_success (db : DB) (orderId userId : Nat) (o : OrderRow)
    (h : db.orders.find? (fun o => o.id == orderId && o.user_id == userId) = some o)
    (hpend : o.status = OrderStatusesEnum.Pending) :
    cancel_order db orderId userId =
      ({ db with orders := db.orders.map (fun x =>
          if x.id == orderId then { x with status := OrderStatusesEnum.Canceled } else x) },
       Except.ok { o with status := OrderStatusesEnum.Canceled }) := by
  unfold cancel_order; rw [h]; simp [hpend]

/-- C3: `cancel_order` fails 404 when no order with the given id is owned by
the caller, fails 409 when the order is not Pending (Paid and Canceled are
terminal), and otherwise updates the status to Canceled and returns the
order; consequently a second cancellation of the same order always fails
409 and cancellation never succeeds twice. -/
theorem cancel_order_spec (db : DB) (orderId userId : Nat) :
    (db.orders.find? (fun o => o.id == orderId && o.user_id == userId) = none →
      cancel_order db orderId userId = (db, Except.error ⟨404, "Order not found"⟩)) ∧
    (∀ o, db.orders.find? (fun o => o.id == orderId && o.user_id == userId) = some o →
      o.status ≠ OrderStatusesEnum.Pending →
      cancel_order db orderId userId = (db, Except.error ⟨409, "Order cannot be canceled."⟩)) ∧
    (∀ o, db.orders.find? (fun o => o.id == orderId && o.user_id == userId) = some o →
      o.status = OrderStatusesEnum.Pending →
      (cancel_order db orderId userId).2 =
        Except.ok { o with status := OrderStatusesEnum.Canceled } ∧
      (cancel_order db orderId userId).1.orders =
        db.orders.map (fun x =>
          if x.id == orderId then { x with status := OrderStatusesEnum.Canceled } else x) ∧
      (cancel_order db orderId userId).1.carts = db.carts ∧
      (cancel_order db orderId userId).1.order_items = db.order_items) ∧
    (∀ db1 o1, cancel_order db orderId userId = (db1, Except.ok o1) →
      cancel_order db1 orderId userId = (db1, Except.error ⟨409, "Order cannot be canceled."⟩)) := by
  refine ⟨?_, ?_, ?_, ?_⟩
  · exact cancel_order_none db orderId userId
  · exact fun o h hne => cancel_order_nonpending db orderId userId o h hne
  · intro o h hpend
    rw [cancel_order_success db orderId userId o h hpend]
    exact ⟨rfl, rfl, rfl, rfl⟩
  · intro db1 o1 h
    cases hf : db.orders.find? (fun o => o.id == orderId && o.user_id == userId) with
    | none =>
      rw [cancel_order_none db orderId userId hf] at h
      exact absurd h (by simp)
    | some o =>
      by_cases hpend : o.status = OrderStatusesEnum.Pending
      · rw [cancel_order_success db orderId userId o hf hpend] at h
        have hdb1 : ({ db with orders := db.orders.map (fun x =>
            if x.id == orderId then { x with status := OrderStatusesEnum.Canceled } else x) } : DB)
            = db1 := congrArg Prod.fst h
        subst hdb1
        have hfind1 := cancel_map_find db.orders orderId userId o hf
        exact cancel_order_nonpending _ orderId userId _ hfind1 (by simp)
      · rw [cancel_order_nonpending db orderId userId o hf hpend] at h
        exact absurd h (by simp)

theorem cancel_order_spec_witness :
    (cancel_order dbCancel 5 1).2 =
      Except.ok { id := 5, user_id := 1, status := OrderStatusesEnum.Canceled, total_amount := 999 } ∧
    cancel_order dbCancel 99 1 = (dbCancel, Except.error ⟨404, "Order not found"⟩) := by
  have h := cancel_order_spec dbCancel 5 1
  have h2 := cancel_order_spec dbCancel 99 1
  exact ⟨(h.2.2.1 ⟨5, 1, OrderStatusesEnum.Pending, 999⟩ (by rfl) rfl).1, h2.1 (by rfl)⟩

theorem verify_activation_token_success (db : DB) (tok : String) (now : Int)
    (db1 : DB) (usr : UserRow)
    (h : verify_activation_token db tok now = (db1, some usr)) :
    ∃ row u0, db.activation_tokens.find? (fun t => t.token == tok) = some row ∧
      ¬(row.expires_at < now) ∧
      db.users.find? (fun u => u.id == row.user_id) = some u0 ∧
      usr = { u0 with is_active := true } ∧
      db1 = { db with
        users := db.users.map (fun x =>
          if x.id == u0.id then { x with is_active := true } else x)
        activation_tokens :=
          db.activation_tokens.filter (fun t => !(t.user_id == u0.id)) } := by
  unfold verify_activation_token at h
  split at h
  · exact absurd h (by simp)
  · rename_i row hrow
    split at h
    · exact absurd h (by simp)
    · rename_i hexp
      split at h
      · exact absurd h (by simp)
      · rename_i u0 hu0
        injection h with h1 h2
        injection h2 with h2
        exact ⟨row, u0, hrow, hexp, hu0, h2.symm, h1.symm⟩

/-- C6: issuing an activation or password-reset token first deletes any
prior token of that purpose for that user, leaving exactly one live token
for that user and the tokens of every other user untouched; a successful
activation redemption marks the user active and deletes all activation
tokens of that user, so redeeming the same token a second time fails. -/
theorem single_live_token_spec (db : DB) (u : Nat) (tok tok2 : String) (tokexp now now2 : Int) :
    ((create_activation_token db u tok tokexp).1.activation_tokens.filter
        (fun t => t.user_id == u) = [⟨u, tok, tokexp⟩] ∧
      ∀ v, v ≠ u →
        (create_activation_token db u tok tokexp).1.activation_tokens.filter
          (fun t => t.user_id == v) =
        db.activation_tokens.filter (fun t => t.user_id == v)) ∧
    ((create_password_reset_token db u tok tokexp).1.password_reset_tokens.filter
        (fun t => t.user_id == u) = [⟨u, tok, tokexp⟩] ∧
      ∀ v, v ≠ u →
        (create_password_reset_token db u tok tokexp).1.password_reset_tokens.filter
          (fun t => t.user_id == v) =
        db.password_reset_tokens.filter (fun t => t.user_id == v)) ∧
    (∀ db1 usr, activationTokensNodup db →
      verify_activation_token db tok2 now = (db1, some usr) →
      usr.is_active = true ∧
      db1.activation_tokens.filter (fun t => t.user_id == usr.id) = [] ∧
      verify_activation_token db1 tok2 now2 = (db1, none)) := by
  refine ⟨⟨?_, ?_⟩, ⟨?_, ?_⟩, ?_⟩
  · simp [create_activation_token, List.filter_append, List.filter_filter]
  · intro v hv
    simp only [create_activation_token, List.filter_append, List.filter_filter]
    have h1 : db.activation_tokens.filter
        (fun a => (a.user_id == v) && !(a.user_id == u)) =
        db.activation_tokens.filter (fun a => a.user_id == v) := by
      apply List.filter_congr
      intro x hx
      cases hxv : (x.user_id == v) with
      | false => simp [hxv]
      | true =>
        have hxvv : x.user_id = v := by simpa using hxv
        simp [hxvv, hv]
    have h2 : (([⟨u, tok, tokexp⟩] : List ActivationTokenRow).filter
        (fun t => t.user_id == v)) = [] := by
      have huv : u ≠ v := fun hh => hv hh.symm
      simp [huv]
    rw [h1, h2, List.append_nil]
  · simp [create_password_reset_token, List.filter_append, List.filter_filter]
  · intro v hv
    simp only [create_password_reset_token, List.filter_append, List.filter_filter]
    have h1 : db.password_reset_tokens.filter
        (fun a => (a.user_id == v) && !(a.user_id == u)) =
        db.password_reset_tokens.filter (fun a => a.user_id == v) := by
      apply List.filter_congr
      intro x hx
      cases hxv : (x.user_id == v) with
      | false => simp [hxv]
      | true =>
        have hxvv : x.user_id = v := by simpa using hxv
        simp [hxvv, hv]
    have h2 : (([⟨u, tok, tokexp⟩] : List PasswordResetTokenRow).filter
        (fun t => t.user_id == v)) = [] := by
      have huv : u ≠ v := fun hh => hv hh.symm
      simp [huv]
    rw [h1, h2, List.append_nil]
  · intro db1 usr hnodup h
    obtain ⟨row, u0, hrow, hexp, hu0, husr, hdb1⟩ :=
      verify_activation_token_success db tok2 now db1 usr h
    subst husr hdb1
    refine ⟨rfl, ?_, ?_⟩
    · simp [List.filter_filter]
    · have hfind : (db.activation_tokens.filter
          (fun t => !(t.user_id == u0.id))).find? (fun t => t.token == tok2) = none := by
        rw [List.find?_filter, List.find?_eq_none]
        intro x hx
        simp only [decide_eq_true_eq, not_and]
        intro hp hq
        have hxtok : x.token = tok2 := by simpa using hq
        have hrowtok : row.token = tok2 := by simpa using List.find?_some hrow
        have hxrow : x = row :=
          List.inj_on_of_nodup_map hnodup hx (List.mem_of_find?_eq_some hrow)
            (hxtok.trans hrowtok.symm)
        have hu0id : u0.id = row.user_id := by simpa using List.find?_some hu0
        rw [hxrow, hu0id] at hp
        simp at hp
      unfold verify_activation_token
      rw [show ({ db with
          users := db.users.map (fun x =>
            if x.id == u0.id then { x with is_active := true } else x)
          activation_tokens :=
            db.activation_tokens.filter (fun t => !(t.user_id == u0.id)) } : DB).activation_tokens
          = db.activation_tokens.filter (fun t => !(t.user_id == u0.id)) from rfl]
      rw [hfind]

theorem single_live_token_witness :
    (create_activation_token dbTok 1 "t2" 300).1.activation_tokens.filter
      (fun t => t.user_id == 1) = [⟨1, "t2", 300⟩] ∧
    verify_activation_token (verify_activation_token dbTok "act" 50).1 "act" 50 =
      ((verify_activation_token dbTok "act" 50).1, none) := by
  have h := single_live_token_spec dbTok 1 "t2" "act" 300 50 50
  refine ⟨h.1.1, ?_⟩
  have hc := h.2.2 (verify_activation_token dbTok "act" 50).1
    ⟨1, "a@b.com", "h", true⟩ (by simp [activationTokensNodup, dbTok]) (by rfl)
  exact hc.2.2

theorem mem_le_foldr_max (l : List Nat) (x : Nat) (hx : x ∈ l) :
    x ≤ l.foldr max 0 := by
  induction l with
  | nil => simp at hx
  | cons a l ih =>
    rcases List.mem_cons.mp hx with h | h
    · subst h; exact le_max_left _ _
    · exact le_trans (ih h) (le_max_right _ _)

theorem cart_id_lt_fresh (db : DB) (c : CartRow) (hc : c ∈ db.carts) :
    c.id < freshCartId db := by
  unfold freshCartId
  have := mem_le_foldr_max (db.carts.map (fun c => c.id)) c.id
    (List.mem_map_of_mem _ hc)
  omega

theorem filter_length_one_of_pairwise (l : List CartItemRow) (cid mid : Nat)
    (hnd : l.Pairwise (fun a b => ¬(a.cart_id = b.cart_id ∧ a.movie_id = b.movie_id)))
    (hex : l.any (fun ci => ci.cart_id == cid && ci.movie_id == mid) = true) :
    (l.filter (fun ci => ci.cart_id == cid && ci.movie_id == mid)).length = 1 := by
  induction l with
  | nil => simp at hex
  | cons a l ih =>
    rw [List.pairwise_cons] at hnd
    obtain ⟨ha, hnd2⟩ := hnd
    cases hp : (a.cart_id == cid && a.movie_id == mid) with
    | true =>
      have hac : a.cart_id = cid ∧ a.movie_id = mid := by simpa using hp
      have hnil : l.filter (fun ci => ci.cart_id == cid && ci.movie_id == mid) = [] := by
        rw [List.filter_eq_nil_iff]
        intro b hb hpb
        have hbc : b.cart_id = cid ∧ b.movie_id = mid := by simpa using hpb
        exact ha b hb ⟨hac.1.trans hbc.1.symm, hac.2.trans hbc.2.symm⟩
      simp [List.filter_cons, hp, hnil]
    | false =>
      have hex2 : l.any (fun ci => ci.cart_id == cid && ci.movie_id == mid) = true := by
        simpa [hp] using hex
      rw [List.filter_cons, if_neg (by rw [hp]; exact Bool.false_ne_true)]
      exact ih hnd2 hex2

/-- C5 counterexample: with movie 1 already purchased by user 1, adding it
to the cart fails with status 400 (BadRequest), not 409 (Conflict) as the
claim states. -/
theorem add_item_purchase_status_counterexample :
    add_movie_to_cart dbPurchased 1 1 =
      (dbPurchased, Except.error ⟨400, "You have already purchased this movie."⟩) ∧
    (400 : Nat) ≠ 409 :=
  ⟨by rfl, by decide⟩

theorem add_movie_to_cart_already (db : DB) (userId movieId : Nat) (m : MovieRow)
    (cart : CartRow) (hm : findMovie db movieId = some m)
    (hpur : hasPurchase db userId movieId = false)
    (hcart : findCart db userId = some cart)
    (hany : db.cart_items.any
      (fun ci => ci.cart_id == cart.id && ci.movie_id == movieId) = true) :
    add_movie_to_cart db userId movieId = (db, Except.ok "Movie is already in the cart.") := by
  unfold add_movie_to_cart
  rw [hm]
  simp [hpur, hcart, hany]

/-- C5 amended: `addItem` fails NotFound(404) if the movie is absent, fails
BadRequest(400) — not Conflict(409) — if a Purchase exists for the pair,
returns a non-error already-in-cart success when the pair is already in the
cart, and otherwise inserts a single CartItem, creating the cart first if
needed; under the store invariants (cart foreign keys valid, unique
(cart_id, movie_id)), adding the same movie twice yields a non-error
already-in-cart response and exactly one CartItem row. -/
theorem add_item_spec (db : DB) (userId movieId : Nat) :
    (findMovie db movieId = none →
      add_movie_to_cart db userId movieId = (db, Except.error ⟨404, "Movie not found."⟩)) ∧
    ((findMovie db movieId).isSome = true → hasPurchase db userId movieId = true →
      add_movie_to_cart db userId movieId =
        (db, Except.error ⟨400, "You have already purchased this movie."⟩)) ∧
    (∀ cart, (findMovie db movieId).isSome = true →
      hasPurchase db userId movieId = false →
      findCart db userId = some cart →
      db.cart_items.any (fun ci => ci.cart_id == cart.id && ci.movie_id == movieId) = true →
      add_movie_to_cart db userId movieId = (db, Except.ok "Movie is already in the cart.")) ∧
    (cartItemsRefIntegrity db → cartItemKeysNodup db →
      ∀ db1 s, add_movie_to_cart db userId movieId = (db1, Except.ok s) →
      add_movie_to_cart db1 userId movieId =
        (db1, Except.ok "Movie is already in the cart.") ∧
      ∃ cart, findCart db1 userId = some cart ∧
        (db1.cart_items.filter
          (fun ci => ci.cart_id == cart.id && ci.movie_id == movieId)).length = 1) := by
  refine ⟨?_, ?_, ?_, ?_⟩
  · intro h; unfold add_movie_to_cart; rw [h]
  · intro hs hpur
    obtain ⟨m, hm⟩ := Option.isSome_iff_exists.mp hs
    unfold add_movie_to_cart; rw [hm]; simp [hpur]
  · intro cart hs hpur hcart hany
    obtain ⟨m, hm⟩ := Option.isSome_iff_exists.mp hs
    unfold add_movie_to_cart; rw [hm]
    simp [hpur, hcart, hany]
  · intro hint hnodup db1 s h
    unfold add_movie_to_cart at h
    split at h
    · exact absurd h (by simp)
    · rename_i m hm
      split at h
      · exact absurd h (by simp)
      · rename_i hpur
        rw [Bool.not_eq_true] at hpur
        split at h
        · rename_i cart hcart
          split at h
          · rename_i hany
            injection h with h1 h2
            subst h1
            refine ⟨?_, cart, hcart, ?_⟩
            · exact add_movie_to_cart_already db userId movieId m cart hm hpur hcart hany
            · exact filter_length_one_of_pairwise db.cart_items cart.id movieId hnodup hany
          · rename_i hany
            rw [Bool.not_eq_true] at hany
            injection h with h1 h2
            have hdb1 : ({ db with cart_items :=
                db.cart_items ++ [⟨cart.id, movieId⟩] } : DB) = db1 := h1
            subst hdb1
            have hany1 : (db.cart_items ++ [(⟨cart.id, movieId⟩ : CartItemRow)]).any
                (fun ci => ci.cart_id == cart.id && ci.movie_id == movieId) = true := by
              simp
            refine ⟨?_, cart, hcart, ?_⟩
            · exact add_movie_to_cart_already _ userId movieId m cart hm hpur hcart hany1
            · rw [show ({ db with cart_items := db.cart_items ++ [⟨cart.id, movieId⟩] } : DB).cart_items
                  = db.cart_items ++ [⟨cart.id, movieId⟩] from rfl]
              rw [List.filter_append]
              have hnil : db.cart_items.filter
                  (fun ci => ci.cart_id == cart.id && ci.movie_id == movieId) = [] := by
                rw [List.filter_eq_nil_iff]
                intro b hb hpb
                have : db.cart_items.any
                    (fun ci => ci.cart_id == cart.id && ci.movie_id == movieId) = true :=
                  List.any_eq_true.mpr ⟨b, hb, hpb⟩
                rw [this] at hany
                exact Bool.noConfusion hany
              rw [hnil]
              simp
        · rename_i hcart
          simp only [] at h
          split at h
          · rename_i hany
            exfalso
            obtain ⟨ci, hcimem, hcip⟩ := List.any_eq_true.mp hany
            have hcid : ci.cart_id = freshCartId db := by
              have := hcip
              simp at this
              exact this.1
            obtain ⟨c, hcmem, hceq⟩ := hint ci hcimem
            have := cart_id_lt_fresh db c hcmem
            omega
          · rename_i hany
            rw [Bool.not_eq_true] at hany
            injection h with h1 h2
            have hdb1 : ({ db with
                carts := db.carts ++ [⟨freshCartId db, userId⟩]
                cart_items := db.cart_items ++ [⟨freshCartId db, movieId⟩] } : DB) = db1 := h1
            subst hdb1
            have hcart1 : findCart { db with
                carts := db.carts ++ [⟨freshCartId db, userId⟩]
                cart_items := db.cart_items ++ [⟨freshCartId db, movieId⟩] } userId =
                some ⟨freshCartId db, userId⟩ := by
              unfold findCart at hcart ⊢
              rw [show ({ db with
                  carts := db.carts ++ [⟨freshCartId db, userId⟩]
                  cart_items := db.cart_items ++ [⟨freshCartId db, movieId⟩] } : DB).carts
                  = db.carts ++ [⟨freshCartId db, userId⟩] from rfl]
              rw [List.find?_append, hcart]
              simp
            have hany1 : (db.cart_items ++ [(⟨freshCartId db, movieId⟩ : CartItemRow)]).any
                (fun ci => ci.cart_id == freshCartId db && ci.movie_id == movieId) = true := by
              simp
            refine ⟨?_, ⟨freshCartId db, userId⟩, hcart1, ?_⟩
            · exact add_movie_to_cart_already _ userId movieId m _ hm hpur hcart1 hany1
            · rw [show ({ db with
                  carts := db.carts ++ [⟨freshCartId db, userId⟩]
                  cart_items := db.cart_items ++ [⟨freshCartId db, movieId⟩] } : DB).cart_items
                  = db.cart_items ++ [⟨freshCartId db, movieId⟩] from rfl]
              rw [List.filter_append]
              have hnil : db.cart_items.filter
                  (fun ci => ci.cart_id == freshCartId db && ci.movie_id == movieId) = [] := by
                rw [List.filter_eq_nil_iff]
                intro b hb hpb
                have hbid : b.cart_id = freshCartId db := by
                  have := hpb
                  simp at this
                  exact this.1
                obtain ⟨c, hcmem, hceq⟩ := hint b hb
                have := cart_id_lt_fresh db c hcmem
                omega
              rw [hnil]
              simp

theorem add_item_spec_witness :
    add_movie_to_cart dbAdd 1 99 = (dbAdd, Except.error ⟨404, "Movie not found."⟩) ∧
    add_movie_to_cart (add_movie_to_cart dbAdd 1 1).1 1 1 =
      ((add_movie_to_cart dbAdd 1 1).1, Except.ok "Movie is already in the cart.") := by
  have h := add_item_spec dbAdd 1 99
  have h2 := add_item_spec dbAdd 1 1
  refine ⟨h.1 (by rfl), ?_⟩
  have hc := h2.2.2.2 (by intro ci hci; simp [dbAdd] at hci)
    (by simp [cartItemKeysNodup, dbAdd])
    (add_movie_to_cart dbAdd 1 1).1 "Movie successfully added to cart." (by rfl)
  exact hc.1

theorem validateItems_ok (db : DB) (userId : Nat) (items : List CartItemRow)
    (h : ∀ it ∈ items, hasPurchase db userId it.movie_id = false ∧
      hasPendingOrderItem db userId it.movie_id = false ∧
      (findMovie db it.movie_id).isSome = true) :
    validateItems db userId items =
      Except.ok (items.map (fun it => (it.movie_id, moviePrice db it.movie_id)),
        (items.map (fun it => moviePrice db it.movie_id)).sum) := by
  induction items with
  | nil => simp [validateItems]
  | cons a l ih =>
    obtain ⟨h1, h2, h3⟩ := h a (List.mem_cons_self a l)
    obtain ⟨m, hm⟩ := Option.isSome_iff_exists.mp h3
    have hm2 : db.movies.find? (fun x => x.id == a.movie_id) = some m := hm
    have hmid : m.id = a.movie_id := by
      have := List.find?_some hm2
      simpa using this
    have hprice : moviePrice db a.movie_id = m.price := by
      unfold moviePrice; rw [hm]
    have hrest := ih (fun it hit => h it (List.mem_cons_of_mem a hit))
    simp only [validateItems, h1, h2, Bool.false_eq_true, if_false, hm, hrest]
    simp [hmid, hprice]

theorem validateItems_error (db : DB) (userId : Nat) (items : List CartItemRow)
    (hint : ∀ it ∈ items, (findMovie db it.movie_id).isSome = true)
    (hfail : ∃ it ∈ items, hasPurchase db userId it.movie_id = true ∨
      hasPendingOrderItem db userId it.movie_id = true) :
    ∃ e, validateItems db userId items = Except.error e ∧ e.status = 409 := by
  induction items with
  | nil => obtain ⟨it, hit, _⟩ := hfail; simp at hit
  | cons a l ih =>
    cases hp : hasPurchase db userId a.movie_id with
    | true =>
      exact ⟨⟨409, "Movie with ID " ++ toString a.movie_id ++ " is already purchased."⟩,
        by simp [validateItems, hp], rfl⟩
    | false =>
      cases hpd : hasPendingOrderItem db userId a.movie_id with
      | true =>
        exact ⟨⟨409, "A pending order for movie with ID " ++ toString a.movie_id ++
          " already exists."⟩, by simp [validateItems, hp, hpd], rfl⟩
      | false =>
        have hfail2 : ∃ it ∈ l, hasPurchase db userId it.movie_id = true ∨
            hasPendingOrderItem db userId it.movie_id = true := by
          obtain ⟨it, hit, hor⟩ := hfail
          rcases List.mem_cons.mp hit with hh | hmem
          · subst hh
            rcases hor with hx | hx
            · rw [hp] at hx; exact absurd hx (by simp)
            · rw [hpd] at hx; exact absurd hx (by simp)
          · exact ⟨it, hmem, hor⟩
        obtain ⟨m, hm⟩ := Option.isSome_iff_exists.mp (hint a (List.mem_cons_self a l))
        obtain ⟨e, he, hst⟩ := ih (fun it hit => hint it (List.mem_cons_of_mem a hit)) hfail2
        refine ⟨e, ?_, hst⟩
        simp [validateItems, hp, hpd, hm, he]

theorem validateItems_pairs (db : DB) (userId : Nat) (items : List CartItemRow)
    (pairs : List (Nat × Int)) (total : Int)
    (h : validateItems db userId items = Except.ok (pairs, total)) :
    ∀ pr ∈ pairs, moviePrice db pr.1 = pr.2 := by
  induction items generalizing pairs total with
  | nil =>
    simp [validateItems] at h
    intro pr hpr
    rw [h.1] at hpr
    simp at hpr
  | cons a l ih =>
    simp only [validateItems] at h
    split at h
    · exact absurd h (by simp)
    · split at h
      · exact absurd h (by simp)
      · split at h
        · exact absurd h (by simp)
        · rename_i m hm
          split at h
          · exact absurd h (by simp)
          · rename_i ps t hrec
            injection h with h2
            injection h2 with hpairs htotal
            subst htotal
            rw [← hpairs]
            intro pr hpr
            rcases List.mem_cons.mp hpr with hh | hmem
            · subst hh
              have hm2 : db.movies.find? (fun x => x.id == a.movie_id) = some m := hm
              have hmid : m.id = a.movie_id := by
                have := List.find?_some hm2
                simpa using this
              show moviePrice db m.id = m.price
              unfold moviePrice findMovie
              rw [hmid, hm2]
            · exact ih ps t hrec pr hmem

theorem create_order_ok_state (db : DB) (userId : Nat) (cart : CartRow)
    (pairs : List (Nat × Int)) (to_pay : Int) (i : CartItemRow) (rest : List CartItemRow)
    (hcart : findCart db userId = some cart)
    (hitems : cartItemsOf db cart.id = i :: rest)
    (hval : validateItems db userId (i :: rest) = Except.ok (pairs, to_pay)) :
    create_order db userId =
      ({ db with
          orders := db.orders ++
            [⟨freshOrderId db, userId, OrderStatusesEnum.Pending, to_pay⟩]
          order_items := db.order_items ++
            pairs.map (fun p => ⟨freshOrderId db, p.1, p.2⟩)
          carts := db.carts.filter (fun c => !(c.id == cart.id))
          cart_items := db.cart_items.filter (fun ci => !(ci.cart_id == cart.id)) },
       Except.ok ⟨freshOrderId db, userId, OrderStatusesEnum.Pending, to_pay⟩) := by
  unfold create_order
  simp [hcart, hitems, hval]

theorem create_order_ok_inv (db : DB) (userId : Nat) (db1 : DB) (o : OrderRow)
    (h : create_order db userId = (db1, Except.ok o)) :
    ∃ cart pairs to_pay, findCart db userId = some cart ∧
      validateItems db userId (cartItemsOf db cart.id) = Except.ok (pairs, to_pay) ∧
      db1.order_items = db.order_items ++
        pairs.map (fun p => (⟨freshOrderId db, p.1, p.2⟩ : OrderItemRow)) := by
  unfold create_order at h
  split at h
  · exact absurd h (by simp)
  · rename_i cart hcart
    split at h
    · exact absurd h (by simp)
    · rename_i i rest hitems
      split at h
      · exact absurd h (by simp)
      · rename_i pr pairs to_pay hval
        injection h with h1 h2
        refine ⟨cart, pairs, to_pay, hcart, ?_, ?_⟩
        · rw [hitems]; exact hval
        · rw [← h1]

/-- C1: `create_order` is all-or-nothing: when any cart item fails
validation (a Purchase exists for the pair, or a Pending order of the user
already references the movie), the request fails with status 409 and the
returned store is the unchanged input — zero Order rows, zero OrderItem
rows, and the cart with all its CartItems intact. -/
theorem create_order_all_or_nothing (db : DB) (userId : Nat) (cart : CartRow)
    (it : CartItemRow)
    (hcart : findCart db userId = some cart)
    (hmem : it ∈ cartItemsOf db cart.id)
    (hint : ∀ x ∈ cartItemsOf db cart.id, (findMovie db x.movie_id).isSome = true)
    (hfail : hasPurchase db userId it.movie_id = true ∨
      hasPendingOrderItem db userId it.movie_id = true) :
    (create_order db userId).1 = db ∧
    errStatus (create_order db userId).2 = some 409 := by
  obtain ⟨e, he, hst⟩ :=
    validateItems_error db userId (cartItemsOf db cart.id) hint ⟨it, hmem, hfail⟩
  have hne : cartItemsOf db cart.id ≠ [] := by
    intro hnil
    rw [hnil] at hmem
    simp at hmem
  obtain ⟨i, rest, heq⟩ := List.exists_cons_of_ne_nil hne
  rw [heq] at he
  have : create_order db userId = (db, Except.error e) := by
    unfold create_order
    simp [hcart, heq, he]
  rw [this]
  simp [errStatus, hst]

theorem create_order_all_or_nothing_witness :
    (create_order dbConflict 1).1 = dbConflict ∧
    errStatus (create_order dbConflict 1).2 = some 409 :=
  create_order_all_or_nothing dbConflict 1 ⟨1, 1⟩ ⟨1, 1⟩ (by rfl)
    (by simp [cartItemsOf, dbConflict, dbOrder]) (by decide) (Or.inl (by rfl))

/-- C2: for a user with a non-empty cart whose items all pass validation,
`create_order` creates exactly one Pending order whose total_amount is the
sum of the current movie prices over the cart items, one OrderItem per cart
item with price_at_order equal to the current movie price, and deletes the
cart together with all its CartItems, all in the same transaction; a
missing or empty cart fails 404 NotFound. -/
theorem create_order_spec (db : DB) (userId : Nat) :
    (findCart db userId = none →
      create_order db userId = (db, Except.error ⟨404, "Cart not found or is empty"⟩)) ∧
    (∀ cart, findCart db userId = some cart → cartItemsOf db cart.id = [] →
      create_order db userId = (db, Except.error ⟨404, "Cart not found or is empty"⟩)) ∧
    (∀ cart, findCart db userId = some cart → cartItemsOf db cart.id ≠ [] →
      (∀ it ∈ cartItemsOf db cart.id,
        hasPurchase db userId it.movie_id = false ∧
        hasPendingOrderItem db userId it.movie_id = false ∧
        (findMovie db it.movie_id).isSome = true) →
      create_order db userId =
        ({ db with
            orders := db.orders ++ [⟨freshOrderId db, userId, OrderStatusesEnum.Pending,
              ((cartItemsOf db cart.id).map (fun x => moviePrice db x.movie_id)).sum⟩]
            order_items := db.order_items ++ (cartItemsOf db cart.id).map
              (fun x => ⟨freshOrderId db, x.movie_id, moviePrice db x.movie_id⟩)
            carts := db.carts.filter (fun c => !(c.id == cart.id))
            cart_items := db.cart_items.filter (fun ci => !(ci.cart_id == cart.id)) },
         Except.ok ⟨freshOrderId db, userId, OrderStatusesEnum.Pending,
           ((cartItemsOf db cart.id).map (fun x => moviePrice db x.movie_id)).sum⟩)) := by
  refine ⟨?_, ?_, ?_⟩
  · intro h; unfold create_order; rw [h]
  · intro cart hcart hitems
    unfold create_order
    simp [hcart, hitems]
  · intro cart hcart hne hvalid
    obtain ⟨i, rest, heq⟩ := List.exists_cons_of_ne_nil hne
    have hval := validateItems_ok db userId (cartItemsOf db cart.id) hvalid
    rw [heq] at hval
    have hstate := create_order_ok_state db userId cart
      ((i :: rest).map (fun x => (x.movie_id, moviePrice db x.movie_id)))
      (((i :: rest).map (fun x => moviePrice db x.movie_id)).sum)
      i rest hcart heq hval
    rw [hstate, heq]
    simp [List.map_map, Function.comp]

theorem create_order_spec_witness :
    create_order dbOrder 1 =
      ({ dbOrder with
          orders := dbOrder.orders ++ [⟨freshOrderId dbOrder, 1, OrderStatusesEnum.Pending,
            ((cartItemsOf dbOrder 1).map (fun x => moviePrice dbOrder x.movie_id)).sum⟩]
          order_items := dbOrder.order_items ++ (cartItemsOf dbOrder 1).map
            (fun x => ⟨freshOrderId dbOrder, x.movie_id, moviePrice dbOrder x.movie_id⟩)
          carts := dbOrder.carts.filter (fun c => !(c.id == 1))
          cart_items := dbOrder.cart_items.filter (fun ci => !(ci.cart_id == 1)) },
       Except.ok ⟨freshOrderId dbOrder, 1, OrderStatusesEnum.Pending,
         ((cartItemsOf dbOrder 1).map (fun x => moviePrice dbOrder x.movie_id)).sum⟩) :=
  (create_order_spec dbOrder 1).2.2 ⟨1, 1⟩ (by rfl) (by decide) (by decide)

/-- C4: `OrderItem.price_at_order` is frozen at order-creation time: after a
successful `create_order`, updating any movie price leaves the order_items
and orders tables untouched, and every OrderItem row the call appended
carries the movie price as read at creation time; no operation re-derives
it from the live movie price. -/
theorem price_at_order_frozen (db : DB) (userId : Nat) (db1 : DB) (o : OrderRow)
    (h : create_order db userId = (db1, Except.ok o)) (movieId : Nat) (p : Int) :
    (updateMoviePrice db1 movieId p).order_items = db1.order_items ∧
    (updateMoviePrice db1 movieId p).orders = db1.orders ∧
    (∀ oi ∈ db1.order_items, oi ∈ db.order_items ∨
      oi.price_at_order = moviePrice db oi.movie_id) := by
  refine ⟨rfl, rfl, ?_⟩
  obtain ⟨cart, pairs, to_pay, hcart, hval, hoi⟩ :=
    create_order_ok_inv db userId db1 o h
  rw [hoi]
  intro oi hmem
  rcases List.mem_append.mp hmem with hold | hnew
  · exact Or.inl hold
  · right
    obtain ⟨pr, hpr, hpri⟩ := List.mem_map.mp hnew
    have := validateItems_pairs db userId (cartItemsOf db cart.id) pairs to_pay hval pr hpr
    rw [← hpri]
    exact this.symm

theorem price_at_order_frozen_witness :
    (updateMoviePrice (create_order dbOrder 1).1 1 5).order_items =
      (create_order dbOrder 1).1.order_items ∧
    (updateMoviePrice (create_order dbOrder 1).1 1 5).orders =
      (create_order dbOrder 1).1.orders := by
  have h := price_at_order_frozen dbOrder 1 (create_order dbOrder 1).1
    ⟨freshOrderId dbOrder, 1, OrderStatusesEnum.Pending, 1499⟩ (by rfl) 1 5
  exact ⟨h.1, h.2.1⟩

end OnlineCinema
